import Mathlib

/-!
# Verification of the replicate-phyton HTTP client layer

Shallow embedding of `src/replicate/client.py` and `src/replicate/collection.py`:
the retry configuration built in `Client.__init__`, the blocking request path
`Client._request`, the non-blocking path `Client._request_async`, lazy API-token
resolution `Client._api_token`, and the `Collection` / `Collections` resources.

Third-party behaviour that the source configures but does not implement is
embedded from the libraries' documented semantics and noted at each definition:
urllib3 1.26 `Retry` (status/method gated retries, backoff, `BACKOFF_MAX = 120`),
`requests.Session.request` (default `allow_redirects=True`), and httpx
(`AsyncHTTPTransport(retries=n)` retries connection establishment only, never
HTTP status codes; `httpx.Response` exposes `reason_phrase` and has no `reason`
attribute).
-/

namespace Replicate

/-- A parsed JSON value, the result of a successful `resp.json()` call.
`obj` holds the entries of a Python dict produced by `json.loads`
(keys already deduplicated). -/
inductive Json where
  | null : Json
  | bool (b : Bool) : Json
  | num (n : Int) : Json
  | str (s : String) : Json
  | arr (xs : List Json) : Json
  | obj (kvs : List (String × Json)) : Json

/-- An HTTP response as seen by the client code: status code, reason phrase,
and body.  `body = none` models a body that is not valid JSON (so `resp.json()`
raises `JSONDecodeError`); `body = some j` models a body parsing to `j`. -/
structure HttpResponse where
  status : Nat
  reason : String
  body : Option Json

/-- Python-level exceptions that can escape the client code paths. -/
inductive PyErr where
  | replicateError (detail : Json) : PyErr
  | valueError (msg : String) : PyErr
  | keyError : PyErr
  | typeError : PyErr
  | indexError : PyErr
  | attributeError : PyErr
  | retryError : PyErr

/-- Outcome of a request path: a returned response or an escaped exception. -/
inductive Outcome where
  | ok (r : HttpResponse) : Outcome
  | raised (e : PyErr) : Outcome

/-! ## Retry configuration (`Client.__init__`, client.py lines 25-63)

`Client.__init__` builds two `requests.Session` objects, each mounted with an
`HTTPAdapter` configured with a urllib3 1.26 `Retry`. -/

/-- The fields of a urllib3 1.26 `Retry` object that `Client.__init__` sets. -/
structure Retry where
  total : Nat
  backoff_factor : Nat
  method_whitelist : List String
  status_forcelist : List Nat

/-- `read_retries` (client.py lines 30-50): `total=5`, `backoff_factor=2`,
`method_whitelist=["GET"]`, and the Cloudflare-inspired status forcelist. -/
def read_retries : Retry :=
  { total := 5
    backoff_factor := 2
    method_whitelist := ["GET"]
    status_forcelist := [429, 500, 502, 503, 504, 520, 521, 522, 523, 524, 526, 527] }

/-- `write_retries` (client.py lines 55-61): `total=5`, `backoff_factor=2`,
`method_whitelist=["POST", "PUT"]`, `status_forcelist=[429]`. -/
def write_retries : Retry :=
  { total := 5
    backoff_factor := 2
    method_whitelist := ["POST", "PUT"]
    status_forcelist := [429] }

/-- urllib3 1.26 `Retry.is_retry`: a received response triggers a retry iff the
method is in the configured method whitelist AND the status code is in the
status forcelist. -/
def Retry.is_retry (r : Retry) (method : String) (status : Nat) : Bool :=
  r.method_whitelist.contains method && r.status_forcelist.contains status

/-- urllib3 1.26 `Retry.get_backoff_time` before the k-th retry (k = number of
consecutive errors in the retry history): zero when `k ≤ 1`, otherwise
`backoff_factor * 2^(k-1)` capped at `BACKOFF_MAX = 120` seconds. -/
def Retry.get_backoff_time (r : Retry) (k : Nat) : Nat :=
  if k ≤ 1 then 0 else min 120 (r.backoff_factor * 2 ^ (k - 1))

/-- Result of `session.request` through the retry-mounted adapter: either a
response is delivered (with the total number of HTTP requests issued), or the
retries were exhausted on a forcelist status and `requests` raises
`RetryError` (urllib3 `MaxRetryError`, `raise_on_status` defaulting to true). -/
inductive SendResult where
  | response (resp : HttpResponse) (requests_issued : Nat) : SendResult
  | exhausted (requests_issued : Nat) : SendResult

/-- The urllib3 retry loop, unrolled over the server's behaviour.
`server i` is the response to the i-th HTTP request (0-indexed);
`remaining` is the current `Retry.total` budget; `i` counts requests already
issued.  Each received response either triggers a retry (decrementing the
budget, raising `MaxRetryError` when it would go below zero) or is returned. -/
def sendFrom (r : Retry) (method : String) (server : Nat → HttpResponse) :
    Nat → Nat → SendResult
  | remaining, i =>
    let resp := server i
    if r.is_retry method resp.status then
      match remaining with
      | 0 => .exhausted (i + 1)
      | rem + 1 => sendFrom r method server rem (i + 1)
    else
      .response resp (i + 1)

/-- `session.request(method, url, ...)` on a session mounted with retry
configuration `r`: run the retry loop with the full `total` budget. -/
def session_send (r : Retry) (method : String) (server : Nat → HttpResponse) :
    SendResult :=
  sendFrom r method server r.total 0

/-- Number of HTTP requests a `SendResult` records as issued. -/
def SendResult.attempts : SendResult → Nat
  | .response _ n => n
  | .exhausted n => n

/-! ## Redirect handling and session selection (`Client._request`, lines 65-76) -/

/-- The effective `allow_redirects` value the blocking path passes to
`session.request`.  `explicit` is a caller-supplied `allow_redirects` kwarg
(`none` when absent).  From client.py lines 67-70: for GET/OPTIONS the code
sets a default of `True`, for HEAD a default of `False` (`setdefault`, so an
explicit kwarg wins); for every other method no default is set and
`requests.Session.request` itself defaults `allow_redirects` to `True`. -/
def sync_allow_redirects (method : String) (explicit : Option Bool) : Bool :=
  match explicit with
  | some b => b
  | none =>
    if method = "GET" ∨ method = "OPTIONS" then true
    else if method = "HEAD" then false
    else true

/-- The effective redirect-following behaviour of the non-blocking path
(client.py lines 87-99): the `httpx.AsyncClient` is constructed with
`follow_redirects=True`, and any `allow_redirects` kwarg is popped from
`kwargs` before the request, so the caller's explicit value is discarded. -/
def async_follow_redirects (_method : String) (_explicit : Option Bool) : Bool :=
  true

/-- Session selection in `Client._request` (lines 73-75): `write_session` for
POST/PUT/DELETE/PATCH, `read_session` for everything else. -/
def session_for (method : String) : Retry :=
  if method = "POST" ∨ method = "PUT" ∨ method = "DELETE" ∨ method = "PATCH" then
    write_retries
  else
    read_retries

/-! ## Error normalization (`Client._request` lines 77-83,
`Client._request_async` lines 103-109) -/

/-- A single-quote character, used by Python `repr` when formatting a string
inside a tuple. -/
def pyQuote : String := String.singleton (Char.ofNat 39)

/-- The fallback message of the blocking path,
`f"HTTP error: {resp.status_code, resp.reason}"`: the f-string formats the
tuple `(status_code, reason)`, whose `repr` wraps the reason string in single
quotes. -/
def http_error_message (status : Nat) (reason : String) : String :=
  "HTTP error: (" ++ toString status ++ ", " ++ pyQuote ++ reason ++ pyQuote ++ ")"

/-- Python subscript `j["detail"]` on a parsed JSON value:
on a dict, the value at the key, or `KeyError` when absent; on any non-dict
value (list, string, number, bool, None), `TypeError`. -/
def json_get_detail : Json → Except PyErr Json
  | .obj kvs =>
    match kvs.lookup "detail" with
    | some v => .ok v
    | none => .error .keyError
  | _ => .error .typeError

/-- The error-normalization block shared textually by `_request` (lines 77-83):
when `400 <= status < 600`, try `raise ReplicateError(resp.json()["detail"])`;
`except (JSONDecodeError, KeyError): pass` falls through to
`raise ReplicateError(f"HTTP error: {resp.status_code, resp.reason}")`, while a
`ReplicateError` or a `TypeError` raised inside the `try` propagates.
Otherwise the response is returned. -/
def normalize_sync (resp : HttpResponse) : Outcome :=
  if 400 ≤ resp.status ∧ resp.status < 600 then
    match resp.body with
    | none => .raised (.replicateError (.str (http_error_message resp.status resp.reason)))
    | some j =>
      match json_get_detail j with
      | .ok v => .raised (.replicateError v)
      | .error .keyError =>
        .raised (.replicateError (.str (http_error_message resp.status resp.reason)))
      | .error _ => .raised .typeError
  else
    .ok resp

/-- The error-normalization block of `_request_async` (lines 103-108).  Same
text as the blocking one, but `resp` is an `httpx.Response`, which has no
`reason` attribute (httpx exposes `reason_phrase`): evaluating the fallback
f-string `f"HTTP error: {resp.status_code, resp.reason}"` raises
`AttributeError` instead of producing a message. -/
def normalize_async (resp : HttpResponse) : Outcome :=
  if 400 ≤ resp.status ∧ resp.status < 600 then
    match resp.body with
    | none => .raised .attributeError
    | some j =>
      match json_get_detail j with
      | .ok v => .raised (.replicateError v)
      | .error .keyError => .raised .attributeError
      | .error _ => .raised .typeError
  else
    .ok resp

/-! ## The two request paths -/

/-- `Client._request` (lines 65-83) as a function of the method and the
server's per-attempt responses: pick the session by method, run the retry
loop, then normalize.  Exhausted retries surface as the `requests.RetryError`
raised by the adapter before normalization is reached. -/
def Client.request_outcome (method : String) (server : Nat → HttpResponse) :
    Outcome :=
  match session_send (session_for method) method server with
  | .exhausted _ => .raised .retryError
  | .response resp _ => normalize_sync resp

/-- Number of HTTP requests `Client._request` causes to be issued. -/
def Client.request_attempts (method : String) (server : Nat → HttpResponse) :
    Nat :=
  (session_send (session_for method) method server).attempts

/-- `Client._request_async` (lines 85-109).  The httpx client is built over
`AsyncHTTPTransport(retries=5)`; httpx transport retries cover connection
establishment only, never received HTTP responses, and no status forcelist
exists in this path, so exactly one HTTP request is issued whenever the server
responds; the first response is then normalized. -/
def Client.request_async_outcome (_method : String) (server : Nat → HttpResponse) :
    Outcome :=
  normalize_async (server 0)

/-- Number of HTTP requests `Client._request_async` causes to be issued when
the server responds: always one (no status-based retry exists in that path). -/
def Client.request_async_attempts (_method : String)
    (_server : Nat → HttpResponse) : Nat :=
  1

/-! ## Environment, construction, and lazy token resolution
(`Client.__init__` lines 15-23, `Client._api_token` lines 117-128) -/

/-- The process environment variables the client reads.  Each field is `none`
when the variable is unset; `some s` when set to `s`. -/
structure Env where
  replicate_api_token : Option String
  replicate_api_base_url : Option String
  replicate_poll_interval : Option String

/-- The state a `Client` holds after `__init__` (lines 15-23): the `api_token`
argument stored verbatim, and `base_url` / `poll_interval` resolved from the
environment at construction time with defaults `"https://api.replicate.com"`
and `"0.5"`.  (`poll_interval` is kept as its source string; the `float()`
parse does not affect which source wins.) -/
structure Client where
  api_token : Option String
  base_url : String
  poll_interval : String

/-- `Client.__init__(self, api_token=None)` (lines 15-23): the only
constructor parameter is `api_token`; `base_url` and `poll_interval` come from
`os.environ` alone. -/
def Client.init (api_token : Option String) (env : Env) : Client :=
  { api_token := api_token
    base_url := env.replicate_api_base_url.getD "https://api.replicate.com"
    poll_interval := env.replicate_poll_interval.getD "0.5" }

/-- The message of the `ReplicateError` raised when no API token resolves. -/
def no_token_message : String :=
  "No API token provided. You need to set the REPLICATE_API_TOKEN environment variable or create a client with replicate.Client(api_token=...).\n\nYou can find your API key on https://replicate.com"

/-- `Client._api_token` (lines 117-128), with the environment passed at call
time because the code reads `os.environ` inside the method (lazily, never at
construction): take `self.api_token`; if it is `None`, fall back to
`REPLICATE_API_TOKEN`; if the result is falsy (`None` or the empty string),
raise `ReplicateError` (the spec's `AuthError`). -/
def Client.api_token_at (c : Client) (env : Env) : Except PyErr String :=
  let token := match c.api_token with
    | none => env.replicate_api_token
    | some t => some t
  match token with
  | none => .error (.replicateError (.str no_token_message))
  | some t => if t = "" then .error (.replicateError (.str no_token_message)) else .ok t

/-! ## Collections (`src/replicate/collection.py`) -/

/-- A model entity.  The `Model` class lives in `src/replicate/model.py`,
which is not part of the sources under study; the collection claims treat its
elements as opaque, so only an identifying name is kept. -/
structure Model where
  name : String

/-- The `Collection` resource (collection.py lines 147-162): `slug`, `name`,
`description`, and an optional list of models (`models: Optional[List[Model]]
= None`). -/
structure Collection where
  slug : String
  name : String
  description : String
  models : Option (List Model)

/-- The deprecated `Collection.id` property (lines 164-170): returns
`self.slug`. -/
def Collection.id (c : Collection) : String :=
  c.slug

/-- Python list subscript `l[i]` with an integer index: a negative index is
offset by the length; an in-range index returns the element, anything else
raises `IndexError` (modelled as a distinguished `error`). -/
def py_list_get (l : List Model) (i : Int) : Except PyErr Model :=
  let j : Int := if i < 0 then i + l.length else i
  if h : 0 ≤ j ∧ j < l.length then
    .ok (l.get ⟨j.toNat, by omega⟩)
  else
    .error .indexError

/-- `Collection.__getitem__` (lines 175-179): when `models` is present,
delegate to list indexing; when `models is None`, return `None` without
raising. -/
def Collection.getitem (c : Collection) (i : Int) : Except PyErr (Option Model) :=
  match c.models with
  | some l => (py_list_get l i).map some
  | none => .ok none

/-- `Collection.__len__` (lines 181-185): the length of `models` when present,
otherwise 0. -/
def Collection.len (c : Collection) : Nat :=
  match c.models with
  | some l => l.length
  | none => 0

/-- The cursor argument of `Collections.list` (line 193):
`cursor: Union[str, "ellipsis"] = ...` — the default is the `...` sentinel,
and `None` can be passed explicitly. -/
inductive Cursor where
  | ellipsis : Cursor
  | str (s : String) : Cursor
  | null : Cursor

/-- The HTTP call a `Collections.list` invocation hands to
`Client._request`. -/
structure IssuedCall where
  method : String
  path : String

/-- `Collections.list` (lines 193-215), up to the request it issues: `None`
raises `ValueError("cursor cannot be None")` before any request; the `...`
sentinel requests `GET /v1/collections`; a cursor string is used as the
request path itself.  The `Except` error branch carries no `IssuedCall`: no
request is issued on the `None` path. -/
def Collections.list_request : Cursor → Except PyErr IssuedCall
  | .null => .error (.valueError "cursor cannot be None")
  | .ellipsis => .ok { method := "GET", path := "/v1/collections" }
  | .str s => .ok { method := "GET", path := s }

/-! ## Theorems -/

/-- The retry loop never issues more than `remaining + 1` further requests. -/
theorem sendFrom_attempts_le (r : Retry) (m : String) (server : Nat → HttpResponse) :
    ∀ remaining i, (sendFrom r m server remaining i).attempts ≤ remaining + i + 1 := by
  intro remaining
  induction remaining with
  | zero =>
    intro i
    unfold sendFrom
    by_cases h : r.is_retry m (server i).status
    · simp [h, SendResult.attempts]
    · simp [h, SendResult.attempts]
  | succ rem ih =>
    intro i
    unfold sendFrom
    by_cases h : r.is_retry m (server i).status
    · simp only [h, if_true]
      have := ih (i + 1)
      omega
    · simp [h, SendResult.attempts]

/-- Claim C1 counterexample: a HEAD or OPTIONS request whose every response is
a 500 causes exactly one HTTP request through the blocking path — it is never
retried, although the claim asserts up to 5 retry attempts for these
methods. -/
theorem C1_counterexample :
    Client.request_attempts "HEAD"
        (fun _ => { status := 500, reason := "Internal Server Error", body := none }) = 1
    ∧ Client.request_attempts "OPTIONS"
        (fun _ => { status := 500, reason := "Internal Server Error", body := none }) = 1 :=
  ⟨rfl, rfl⟩

/-- Claim C1 (amended): for a GET request, every status in the configured
forcelist is retried: with a persistently failing server the blocking path
issues exactly 6 HTTP requests (1 original + 5 retries) and then fails with
the adapter's retry-exhaustion error; no run ever issues more than 6 requests;
the backoff before the first retry is 0 and afterwards doubles
(`backoff_factor = 2`).  HEAD and OPTIONS requests are never retried: one
request is issued whatever the status. -/
theorem C1_amended (s : Nat) (reason : String)
    (hs : s ∈ read_retries.status_forcelist) :
    Client.request_outcome "GET" (fun _ => { status := s, reason := reason, body := none }) =
        .raised .retryError
    ∧ Client.request_attempts "GET" (fun _ => { status := s, reason := reason, body := none }) = 6
    ∧ Client.request_attempts "HEAD" (fun _ => { status := s, reason := reason, body := none }) = 1
    ∧ Client.request_attempts "OPTIONS" (fun _ => { status := s, reason := reason, body := none }) = 1
    ∧ (∀ server, Client.request_attempts "GET" server ≤ 6)
    ∧ read_retries.get_backoff_time 1 = 0
    ∧ (∀ k, 2 ≤ k → k ≤ 5 →
        read_retries.get_backoff_time (k + 1) = 2 * read_retries.get_backoff_time k) := by
  refine ⟨?_, ?_, rfl, rfl, ?_, rfl, ?_⟩
  · fin_cases hs <;> rfl
  · fin_cases hs <;> rfl
  · intro server
    exact sendFrom_attempts_le read_retries "GET" server 5 0
  · intro k h2 h5
    interval_cases k <;> decide

/-- Claim C1 witness: instantiating the amended claim at status 500. -/
theorem C1_witness :
    Client.request_outcome "GET"
        (fun _ => { status := 500, reason := "Internal Server Error", body := none }) =
      .raised .retryError :=
  (C1_amended 500 "Internal Server Error" (by decide)).1

/-- Claim C2 counterexample: a PATCH or DELETE request whose every response is
a 429 causes exactly one HTTP request through the blocking path — it is never
retried, although the claim asserts 429 is retried for all mutating
methods. -/
theorem C2_counterexample :
    Client.request_attempts "PATCH"
        (fun _ => { status := 429, reason := "Too Many Requests", body := none }) = 1
    ∧ Client.request_attempts "DELETE"
        (fun _ => { status := 429, reason := "Too Many Requests", body := none }) = 1 :=
  ⟨rfl, rfl⟩

/-- Claim C2 (amended): a 500 response is never retried for any of
POST/PUT/PATCH/DELETE (one request issued).  A persistent 429 is retried 5
times, with the same doubling backoff, for POST and PUT only, after which the
path fails with the retry-exhaustion error; PATCH and DELETE requests are
never retried whatever the server does. -/
theorem C2_amended (reason : String) :
    (∀ m, m = "POST" ∨ m = "PUT" ∨ m = "PATCH" ∨ m = "DELETE" →
      Client.request_attempts m (fun _ => { status := 500, reason := reason, body := none }) = 1)
    ∧ Client.request_outcome "POST"
        (fun _ => { status := 429, reason := reason, body := none }) = .raised .retryError
    ∧ Client.request_attempts "POST"
        (fun _ => { status := 429, reason := reason, body := none }) = 6
    ∧ Client.request_outcome "PUT"
        (fun _ => { status := 429, reason := reason, body := none }) = .raised .retryError
    ∧ Client.request_attempts "PUT"
        (fun _ => { status := 429, reason := reason, body := none }) = 6
    ∧ (∀ server, Client.request_attempts "PATCH" server = 1)
    ∧ (∀ server, Client.request_attempts "DELETE" server = 1)
    ∧ (∀ k, 2 ≤ k → k ≤ 5 →
        write_retries.get_backoff_time (k + 1) = 2 * write_retries.get_backoff_time k) := by
  refine ⟨?_, rfl, rfl, rfl, rfl, fun _ => rfl, fun _ => rfl, ?_⟩
  · rintro m (rfl | rfl | rfl | rfl) <;> rfl
  · intro k h2 h5
    interval_cases k <;> decide

/-- Claim C2 witness: instantiating the amended claim — a POST receiving 429
persistently exhausts its 5 retries. -/
theorem C2_witness :
    Client.request_outcome "POST"
        (fun _ => { status := 429, reason := "Too Many Requests", body := none }) =
      .raised .retryError :=
  (C2_amended "Too Many Requests").2.1

/-- Claim C3 counterexample: a 500 response whose body is valid JSON but not a
JSON object (here the array `[]`) does not produce the fallback
ReplicateError message — the subscript `resp.json()["detail"]` raises
`TypeError`, which `except (JSONDecodeError, KeyError)` does not catch, so the
TypeError escapes. -/
theorem C3_counterexample :
    normalize_sync { status := 500, reason := "Internal Server Error", body := some (.arr []) } =
      .raised .typeError :=
  rfl

/-- Claim C3 (amended), for the blocking path: when the status is in
[400, 600), a body parsing to a JSON object with a `detail` key raises
`ReplicateError` carrying that detail; a body that is not valid JSON, or
parses to a JSON object without `detail`, raises `ReplicateError` whose
message is built from the status code and reason phrase; a body parsing to
JSON that is not an object lets a `TypeError` escape.  A status outside
[400, 600) returns the response unchanged. -/
theorem C3_amended (resp : HttpResponse) :
    (400 ≤ resp.status → resp.status < 600 →
      (∀ kvs v, resp.body = some (.obj kvs) → kvs.lookup "detail" = some v →
          normalize_sync resp = .raised (.replicateError v))
      ∧ (resp.body = none →
          normalize_sync resp =
            .raised (.replicateError (.str (http_error_message resp.status resp.reason))))
      ∧ (∀ kvs, resp.body = some (.obj kvs) → kvs.lookup "detail" = none →
          normalize_sync resp =
            .raised (.replicateError (.str (http_error_message resp.status resp.reason))))
      ∧ (∀ j, resp.body = some j → (∀ kvs, j ≠ .obj kvs) →
          normalize_sync resp = .raised .typeError))
    ∧ (¬(400 ≤ resp.status ∧ resp.status < 600) → normalize_sync resp = .ok resp) := by
  constructor
  · intro h4 h6
    refine ⟨?_, ?_, ?_, ?_⟩
    · intro kvs v hb hl
      simp [normalize_sync, hb, json_get_detail, hl, h4, h6]
    · intro hb
      simp [normalize_sync, hb, h4, h6]
    · intro kvs hb hl
      simp [normalize_sync, hb, json_get_detail, hl, h4, h6]
    · intro j hb hobj
      cases j with
      | obj kvs => exact absurd rfl (hobj kvs)
      | null => simp [normalize_sync, hb, json_get_detail, h4, h6]
      | bool b => simp [normalize_sync, hb, json_get_detail, h4, h6]
      | num n => simp [normalize_sync, hb, json_get_detail, h4, h6]
      | str s => simp [normalize_sync, hb, json_get_detail, h4, h6]
      | arr xs => simp [normalize_sync, hb, json_get_detail, h4, h6]
  · intro h
    simp [normalize_sync, h]

/-- Claim C3 witness: a 404 with body `{"detail": "Not found"}` raises
`ReplicateError("Not found")`, and a 200 response is returned unchanged. -/
theorem C3_witness :
    normalize_sync
        { status := 404
          reason := "Not Found"
          body := some (.obj [("detail", Json.str "Not found")]) } =
      .raised (.replicateError (.str "Not found"))
    ∧ normalize_sync { status := 200, reason := "OK", body := none } =
      .ok { status := 200, reason := "OK", body := none } :=
  ⟨((C3_amended _).1 (by decide) (by decide)).1 [("detail", Json.str "Not found")]
      (Json.str "Not found") rfl rfl,
    (C3_amended _).2 (by decide)⟩

/-- The server behaviour on which the blocking and non-blocking request paths
diverge: the first response is a 500 carrying `{"detail": "server exploded"}`,
every later one is a 200. -/
def c4_server : Nat → HttpResponse := fun i =>
  if i = 0 then
    { status := 500, reason := "Internal Server Error",
      body := some (.obj [("detail", Json.str "server exploded")]) }
  else
    { status := 200, reason := "OK", body := some (.obj []) }

/-- Claim C4: against a server answering 500 then 200, a blocking GET retries
the 500 (urllib3 status forcelist), issues 2 requests, and returns the 200
response; the non-blocking GET has no status-based retry (its httpx transport
retries cover connection establishment only), issues 1 request, and raises
`ReplicateError` from the first response.  The two paths therefore do not have
identical retry/error semantics, contradicting the stated requirement. -/
theorem C4_divergence :
    Client.request_outcome "GET" c4_server =
        .ok { status := 200, reason := "OK", body := some (.obj []) }
    ∧ Client.request_async_outcome "GET" c4_server =
        .raised (.replicateError (.str "server exploded"))
    ∧ Client.request_attempts "GET" c4_server = 2
    ∧ Client.request_async_attempts "GET" c4_server = 1
    ∧ Client.request_outcome "GET" c4_server ≠ Client.request_async_outcome "GET" c4_server := by
  refine ⟨rfl, rfl, rfl, rfl, ?_⟩
  intro h
  rw [show Client.request_outcome "GET" c4_server =
        .ok { status := 200, reason := "OK", body := some (.obj []) } from rfl,
      show Client.request_async_outcome "GET" c4_server =
        .raised (.replicateError (.str "server exploded")) from rfl] at h
  exact Outcome.noConfusion h

/-- Claim C5: the token used for a call is resolved from the explicit
construction argument when that is not `None`, otherwise from the environment
as it stands at call time (the construction-time environment `envC` is
irrelevant, and construction stores only the explicit argument); when neither
source yields a non-empty token the call fails with the `ReplicateError`
playing the role of `AuthError`. -/
theorem C5_lazy_token (tok : Option String) (envC envCall : Env) :
    (Client.init tok envC).api_token = tok
    ∧ (∀ t, tok = some t → t ≠ "" →
        (Client.init tok envC).api_token_at envCall = .ok t)
    ∧ (tok = none → ∀ e, envCall.replicate_api_token = some e → e ≠ "" →
        (Client.init tok envC).api_token_at envCall = .ok e)
    ∧ (tok = none →
        (envCall.replicate_api_token = none ∨ envCall.replicate_api_token = some "") →
        (Client.init tok envC).api_token_at envCall =
          .error (.replicateError (.str no_token_message))) := by
  refine ⟨rfl, ?_, ?_, ?_⟩
  · rintro t rfl ht
    simp [Client.init, Client.api_token_at, ht]
  · rintro rfl e he hne
    simp [Client.init, Client.api_token_at, he, hne]
  · rintro rfl (he | he) <;> simp [Client.init, Client.api_token_at, he]

/-- An environment with `REPLICATE_API_TOKEN` set and the others unset. -/
def env_with_token : Env :=
  { replicate_api_token := some "envtok"
    replicate_api_base_url := none
    replicate_poll_interval := none }

/-- An environment with every variable unset. -/
def env_empty : Env :=
  { replicate_api_token := none
    replicate_api_base_url := none
    replicate_poll_interval := none }

/-- Claim C5 witness: a client built with an explicit token uses it whatever
the environment; a client built without one fails when the call-time
environment has no token. -/
theorem C5_witness :
    (Client.init (some "tok123") env_with_token).api_token_at env_with_token = .ok "tok123"
    ∧ (Client.init none env_with_token).api_token_at env_empty =
      .error (.replicateError (.str no_token_message)) :=
  ⟨(C5_lazy_token (some "tok123") env_with_token env_with_token).2.1 "tok123" rfl (by decide),
    (C5_lazy_token none env_with_token env_empty).2.2.2 rfl (Or.inl rfl)⟩

/-- Claim C6: calling `Collections.list` with the `...` sentinel issues
`GET /v1/collections`; calling it with a cursor string issues a GET to that
cursor; calling it with an explicit `None` fails with
`ValueError("cursor cannot be None")` (the spec's `ValidationError`), and the
error branch carries no issued request. -/
theorem C6_list_cursor :
    Collections.list_request .ellipsis = .ok { method := "GET", path := "/v1/collections" }
    ∧ (∀ s, Collections.list_request (.str s) = .ok { method := "GET", path := s })
    ∧ Collections.list_request .null = .error (.valueError "cursor cannot be None") :=
  ⟨rfl, fun _ => rfl, rfl⟩

/-- An environment that sets `REPLICATE_API_BASE_URL` and
`REPLICATE_POLL_INTERVAL`. -/
def env_with_overrides : Env :=
  { replicate_api_token := none
    replicate_api_base_url := some "https://env.example"
    replicate_poll_interval := some "2.5" }

/-- Claim C7 counterexample: with the environment supplying a base URL and a
poll interval, no choice of construction argument yields a client whose
`base_url` or `poll_interval` differs from the environment's value —
`Client.__init__(self, api_token=None)` has no parameter for either, so
neither is overridable by an explicit construction argument as the claim
requires. -/
theorem C7_counterexample :
    (¬ ∃ tok : Option String,
      (Client.init tok env_with_overrides).base_url ≠ "https://env.example")
    ∧ (¬ ∃ tok : Option String,
      (Client.init tok env_with_overrides).poll_interval ≠ "2.5") := by
  constructor
  · rintro ⟨tok, h⟩
    exact h rfl
  · rintro ⟨tok, h⟩
    exact h rfl

/-- Claim C7 (amended): the API token is settable via `REPLICATE_API_TOKEN`
and overridable by the `api_token` construction argument, the explicit
argument winning.  The base URL and poll interval are settable via
`REPLICATE_API_BASE_URL` / `REPLICATE_POLL_INTERVAL` only (defaults
`https://api.replicate.com` and `0.5`); `__init__` takes no argument for
them. -/
theorem C7_amended (tok : String) (envC envCall : Env) (htok : tok ≠ "") :
    (Client.init (some tok) envC).api_token_at envCall = .ok tok
    ∧ (∀ e, envCall.replicate_api_token = some e → e ≠ "" →
        (Client.init none envC).api_token_at envCall = .ok e)
    ∧ (∀ u, envC.replicate_api_base_url = some u →
        (Client.init (some tok) envC).base_url = u ∧ (Client.init none envC).base_url = u)
    ∧ (envC.replicate_api_base_url = none →
        (Client.init (some tok) envC).base_url = "https://api.replicate.com")
    ∧ (∀ p, envC.replicate_poll_interval = some p →
        (Client.init (some tok) envC).poll_interval = p
        ∧ (Client.init none envC).poll_interval = p)
    ∧ (envC.replicate_poll_interval = none →
        (Client.init (some tok) envC).poll_interval = "0.5") := by
  refine ⟨?_, ?_, ?_, ?_, ?_, ?_⟩
  · simp [Client.init, Client.api_token_at, htok]
  · intro e he hne
    simp [Client.init, Client.api_token_at, he, hne]
  · intro u hu
    simp [Client.init, hu]
  · intro hu
    simp [Client.init, hu]
  · intro p hp
    simp [Client.init, hp]
  · intro hp
    simp [Client.init, hp]

/-- Claim C7 witness: the explicit token `"tok123"` wins over
`REPLICATE_API_TOKEN="envtok"`, while the base URL and poll interval come from
the environment. -/
theorem C7_witness :
    (Client.init (some "tok123") env_with_overrides).api_token_at env_with_token = .ok "tok123"
    ∧ (Client.init (some "tok123") env_with_overrides).base_url = "https://env.example"
    ∧ (Client.init (some "tok123") env_with_overrides).poll_interval = "2.5" :=
  ⟨(C7_amended "tok123" env_with_overrides env_with_token (by decide)).1,
    ((C7_amended "tok123" env_with_overrides env_with_token (by decide)).2.2.1
      "https://env.example" rfl).1,
    ((C7_amended "tok123" env_with_overrides env_with_token (by decide)).2.2.2.2.1
      "2.5" rfl).1⟩

/-- Claim C8 counterexample: in the blocking path a HEAD request with no
explicit `allow_redirects` kwarg does not follow redirects — the code sets a
default of `False` for HEAD, although the claim asserts redirects are
followed by default for all of GET/HEAD/OPTIONS. -/
theorem C8_counterexample :
    sync_allow_redirects "HEAD" none = false :=
  rfl

/-- Claim C8 (amended): in the blocking path, GET and OPTIONS requests follow
redirects by default and HEAD requests do not, an explicit `allow_redirects`
kwarg winning in every case; the non-blocking path always follows redirects
and discards any explicit `allow_redirects` kwarg. -/
theorem C8_amended :
    sync_allow_redirects "GET" none = true
    ∧ sync_allow_redirects "OPTIONS" none = true
    ∧ sync_allow_redirects "HEAD" none = false
    ∧ (∀ m b, sync_allow_redirects m (some b) = b)
    ∧ (∀ m e, async_follow_redirects m e = true) :=
  ⟨rfl, rfl, rfl, fun _ _ => rfl, fun _ _ => rfl⟩

/-- Claim C9: on a `Collection` whose `models` field is `None`, `__len__`
returns 0 and `__getitem__` returns `None` at every integer index; neither
raises. -/
theorem C9_models_none (c : Collection) (h : c.models = none) :
    c.len = 0 ∧ ∀ i : Int, c.getitem i = .ok none := by
  constructor
  · simp [Collection.len, h]
  · intro i
    simp [Collection.getitem, h]

/-- A collection with no `models` list. -/
def collection_without_models : Collection :=
  { slug := "text-to-image"
    name := "Text to image"
    description := "Models that generate images"
    models := none }

/-- Claim C9 witness: the empty-models collection at index 3. -/
theorem C9_witness :
    collection_without_models.len = 0
    ∧ collection_without_models.getitem 3 = .ok none :=
  ⟨(C9_models_none collection_without_models rfl).1,
    (C9_models_none collection_without_models rfl).2 3⟩

/-- Claim C10: the deprecated `Collection.id` property returns exactly the
`slug` field. -/
theorem C10_id_is_slug (c : Collection) : c.id = c.slug :=
  rfl

/-- Claim C10 witness: on a concrete collection, `id` evaluates to its
slug. -/
theorem C10_witness : collection_without_models.id = "text-to-image" :=
  (C10_id_is_slug collection_without_models).trans rfl

end Replicate
